import Mathlib

/-
Verification of the PaperNewsBot core pipeline
(ingestion-dedup, field-matching, briefing-generation, per-user fanout,
delivery-state machine).

Shallow embedding conventions:
* Python strings are sequences of code points, modelled as `List Char`.
* `datetime` instants are modelled as `Int` (seconds); `timedelta(days=n)`
  is `n * oneDay`.  Only the linear order on instants matters here.
* The SQLAlchemy-backed store is a record of lists of rows; column and
  index constraints declared in `src/models/database.py` are transcribed
  into explicit insert-time checks.
* Fallible service methods return their Python value plus the updated
  store; the code paths that swallow exceptions and roll back are
  modelled by returning the input store unchanged.
-/

namespace PaperNewsBot

/-- Python strings are sequences of code points; we model them as lists of characters. -/
abbrev PyStr := List Char

/-- Coerce a Lean string literal to the model of Python strings. -/
def chars (s : String) : PyStr := s.data

/-- Python `str.lower`, modelled code-point-wise. -/
def pyLower (s : PyStr) : PyStr := s.map Char.toLower

/-- Python substring test `pat in text`. -/
def pyIn (pat text : PyStr) : Bool := decide (pat <:+: text)

/-- Python `str.strip`: remove leading and trailing whitespace. -/
def pyStrip (s : PyStr) : PyStr :=
  ((s.dropWhile Char.isWhitespace).reverse.dropWhile Char.isWhitespace).reverse

/-! ## AIService (src/services/ai_service.py)

`Settings` keeps only the configuration bits this module branches on:
whether an OpenAI key and an Anthropic key are configured (Python tests
the truthiness of the key strings). -/

structure Settings where
  openai_api_key : Bool
  anthropic_api_key : Bool
deriving DecidableEq

/-- AIService.check_interest (ai_service.py lines 144-166).
The second component of the Python result is a float score
`match_count / len(user_interests)`; we model it exactly in `ℚ`.  The
boolean component is insensitive to the float representation: the
threshold disjunct `score >= 0.3` can only hold when `match_count > 0`,
which the second disjunct already tests. -/
def check_interest (title abstract : PyStr) (keywords : List PyStr)
    (user_interests : List PyStr) : Bool × ℚ :=
  if user_interests.isEmpty then (true, 1)
  else
    let text := pyLower (title ++ chars " " ++ abstract ++ chars " " ++
      List.intercalate (chars " ") keywords)
    let match_count := user_interests.countP (fun i => pyIn (pyLower i) text)
    let score : ℚ := (match_count : ℚ) / (user_interests.length : ℚ)
    (decide ((3 : ℚ)/10 ≤ score) || decide (0 < match_count), score)

/-- AIService._build_briefing_prompt (ai_service.py lines 63-98),
transcribed f-string by f-string.  `venue_info` is empty when `venue` is
None or the empty string (Python truthiness). -/
def _build_briefing_prompt (title authors abstract : PyStr)
    (venue : Option PyStr) : PyStr :=
  let venue_info : PyStr :=
    match venue with
    | some v => if v.isEmpty then [] else chars "发表会议/期刊: " ++ v ++ chars "\n"
    | none => []
  chars "请为以下学术论文生成一份简洁的简报（用中文）：\n\n论文标题: " ++ title ++
  chars "\n作者: " ++ authors ++ chars "\n" ++ venue_info ++ chars "摘要:\n" ++
  abstract ++
  chars "\n\n请按照以下格式生成简报：\n\n📄 **" ++ title ++
  chars "**\n\n👥 **作者**: " ++ authors ++
  chars "\n\n🎯 **核心贡献**:\n- [简要概括论文的主要贡献，2-3点]\n\n🔍 **方法概述**:\n[简要描述论文使用的方法，1-2句话]\n\n📊 **主要结果**:\n[如果有实验结果，简要概括]\n\n💡 **关键见解**:\n[论文的核心观点或创新点]\n\n请确保简报简洁明了，突出论文的核心价值。"

/-- AIService._fallback_summary (ai_service.py lines 135-142): the paper
title, the first 500 characters of the abstract, an explicit `...`
truncation marker when the abstract is longer than 500 characters, and
the AI-unavailable annotation. -/
def _fallback_summary (title abstract : PyStr) : PyStr :=
  chars "📄 **" ++ title ++ chars "**\n\n📝 **摘要**:\n" ++
  abstract.take 500 ++
  (if 500 < abstract.length then chars "..." else []) ++
  chars "\n\n⚠️ *注：AI 服务暂时不可用，以上为原始摘要。"

/-- AIService.generate_briefing (ai_service.py lines 45-61) together with
the two backend wrappers (lines 100-133).  The external generation call
is modelled by `outcome`: `some text` when the collaborator returns
(already stripped) text, `none` when it raises.  Note that in the
exception handlers of both `_generate_with_openai` and
`_generate_with_anthropic` the source calls
`self._fallback_summary(prompt, "")` — the PROMPT is passed as the title
argument and the abstract argument is the empty string.  Only the
no-backend branch calls `self._fallback_summary(title, abstract)`. -/
def generate_briefing (cfg : Settings) (outcome : Option PyStr)
    (title authors abstract : PyStr) (venue : Option PyStr) : PyStr :=
  let prompt := _build_briefing_prompt title authors abstract venue
  if cfg.openai_api_key then
    match outcome with
    | some text => text
    | none => _fallback_summary prompt []
  else if cfg.anthropic_api_key then
    match outcome with
    | some text => text
    | none => _fallback_summary prompt []
  else
    _fallback_summary title abstract

/-! ## Data model (src/models/database.py)

Rows keep the identity and content columns the claims are about; the
housekeeping timestamps `created_at`/`updated_at` of Paper and Briefing
are omitted (no claim mentions them). -/

/-- Paper row (database.py lines 136-161).  Declared constraints:
primary key `id`; `external_id` is `unique=True` — a GLOBAL uniqueness
constraint on `external_id` alone; `source` merely indexed; the composite
index `ix_papers_source_external_id` on (source, external_id) is NOT
declared unique. -/
structure Paper where
  id : Nat
  external_id : PyStr
  source : PyStr
  title : PyStr
  authors : PyStr
  abstract : PyStr
  keywords : Option PyStr
  publish_date : Option Int
  venue : Option PyStr
  pdf_url : Option PyStr
  source_url : PyStr
deriving DecidableEq

/-- Briefing row (database.py lines 184-197).  Declared constraints:
primary key `id`; `paper_id` is a foreign key into `papers` with
`index=True` only — a plain, NON-unique index; there is no uniqueness
constraint on `paper_id`. -/
structure Briefing where
  id : Nat
  paper_id : Nat
  content : PyStr
  ai_model : Option PyStr
deriving DecidableEq

/-- UserBriefing row (database.py lines 214-235).  Declared constraints:
primary key `id`; foreign keys `user_id`, `briefing_id`; the composite
index on (user_id, briefing_id) IS declared `unique=True`. -/
structure UserBriefing where
  id : Nat
  user_id : Nat
  briefing_id : Nat
  is_sent : Bool
  sent_at : Option Int
  is_read : Bool
  read_at : Option Int
  is_interested : Bool
  created_at : Int
deriving DecidableEq

/-- ResearchField row (database.py lines 44-86), restricted to the
columns the verified services read.  `keywords` is a nullable
comma-separated text column. -/
structure ResearchField where
  id : Nat
  name : PyStr
  keywords : Option PyStr
deriving DecidableEq

/-- ResearchField.get_keywords_list (database.py lines 82-86):
split the comma-separated column, strip each piece, drop empties;
a None (or falsy, i.e. empty) column yields the empty list. -/
def ResearchField.get_keywords_list (f : ResearchField) : List PyStr :=
  match f.keywords with
  | some s =>
      if s.isEmpty then []
      else ((s.splitOn ',').map pyStrip).filter (fun kw => !kw.isEmpty)
  | none => []

/-- User row (database.py lines 89-114), restricted to the columns the
verified services read; `research_fields` is the many-to-many
association materialised on the row. -/
structure User where
  id : Nat
  telegram_id : PyStr
  daily_paper_limit : Nat
  is_active : Bool
  crawl_history_days : Nat
  research_fields : List ResearchField
deriving DecidableEq

/-- The relational store: one list of rows per table. -/
structure DB where
  papers : List Paper
  briefings : List Briefing
  user_briefings : List UserBriefing
deriving DecidableEq

/-- Autoincrement primary keys: the next id is one past the largest id in
use. -/
def freshId (ids : List Nat) : Nat := ids.foldr max 0 + 1

/-- One day of model time (seconds). -/
def oneDay : Int := 86400

/-! ## PaperService (src/services/paper_service.py) -/

/-- A raw record from a data-source collaborator
(the PaperMetadata shape produced by the crawlers, see the IngestionDedup input shape). -/
structure PaperMetadata where
  external_id : PyStr
  source : PyStr
  title : PyStr
  authors : List PyStr
  abstract : PyStr
  keywords : List PyStr
  publish_date : Option Int
  venue : Option PyStr
  pdf_url : Option PyStr
  source_url : PyStr
deriving DecidableEq

/-- The insert-time check the persistence layer performs for a new
`papers` row, transcribed from the constraints declared in database.py
lines 136-161: the primary key must be fresh and `external_id` must be
globally unique.  The composite (source, external_id) index is not
unique, so it contributes no check. -/
def paperInsertOk (db : DB) (p : Paper) : Bool :=
  db.papers.all (fun q => decide (q.id ≠ p.id) && decide (q.external_id ≠ p.external_id))

/-- The Paper row `_save_paper` builds from a record
(paper_service.py lines 159-170): text fields normalised, the author
list and keyword list joined with a fixed separator, autoincrement
id. -/
def paperRow (db : DB) (m : PaperMetadata) : Paper :=
  { id := freshId (db.papers.map Paper.id)
    external_id := m.external_id
    source := m.source
    title := m.title
    authors := List.intercalate (chars ", ") m.authors
    abstract := m.abstract
    keywords := if m.keywords.isEmpty then none
                else some (List.intercalate (chars ", ") m.keywords)
    publish_date := m.publish_date
    venue := m.venue
    pdf_url := m.pdf_url
    source_url := m.source_url }

/-- PaperService._save_paper (paper_service.py lines 143-186): look up an
existing Paper by (source, external_id); if found, return None without
touching the row.  Otherwise insert the new row; an IntegrityError from
the insert is caught, the transaction rolled back, and None returned. -/
def _save_paper (db : DB) (m : PaperMetadata) : Option Paper × DB :=
  if db.papers.any (fun p =>
      decide (p.external_id = m.external_id) && decide (p.source = m.source)) then
    (none, db)
  else if paperInsertOk db (paperRow db m) then
    (some (paperRow db m), { db with papers := db.papers ++ [paperRow db m] })
  else (none, db)

/-- The per-source ingestion loop (paper_service.py lines 112-124 and
135-139): save each record in order and return only the newly inserted
papers. -/
def ingest (db : DB) : List PaperMetadata → List Paper × DB
  | [] => ([], db)
  | m :: rest =>
    let r := _save_paper db m
    let out := ingest r.2 rest
    (match r.1 with
     | some p => p :: out.1
     | none => out.1, out.2)

/-! ## BriefingService (src/services/briefing_service.py) -/

/-- The insert-time check the persistence layer performs for a new
`briefings` row, transcribed from database.py lines 184-197: fresh
primary key and a valid foreign key into `papers`.  `paper_id` carries
only a non-unique index, so duplicate `paper_id` values pass this
check. -/
def briefingInsertOk (db : DB) (b : Briefing) : Bool :=
  db.briefings.all (fun c => decide (c.id ≠ b.id)) &&
  db.papers.any (fun p => decide (p.id = b.paper_id))

/-- Append a briefings row (the committed insert). -/
def insertBriefing (db : DB) (b : Briefing) : DB :=
  { db with briefings := db.briefings ++ [b] }

/-- The Briefing row `_generate_single_briefing` builds for a paper
(briefing_service.py lines 112-125): content from the generation call,
ai_model tag from which key is configured, fresh autoincrement id. -/
def briefingRow (db : DB) (paper : Paper) (cfg : Settings)
    (outcome : Option PyStr) : Briefing :=
  { id := freshId (db.briefings.map Briefing.id)
    paper_id := paper.id
    content := generate_briefing cfg outcome paper.title paper.authors
      paper.abstract paper.venue
    ai_model := some (if cfg.openai_api_key then chars "openai"
                      else if cfg.anthropic_api_key then chars "anthropic"
                      else chars "fallback") }

/-- BriefingService._generate_single_briefing (briefing_service.py lines
101-141): pre-check for an existing briefing of the paper (return it if
present), otherwise insert a new row; an exception rolls back and
returns None. -/
def _generate_single_briefing (db : DB) (paper : Paper) (cfg : Settings)
    (outcome : Option PyStr) : Option Briefing × DB :=
  match db.briefings.find? (fun b => decide (b.paper_id = paper.id)) with
  | some existing => (some existing, db)
  | none =>
    let b := briefingRow db paper cfg outcome
    if briefingInsertOk db b then (some b, insertBriefing db b)
    else (none, db)

/-- A sequence of `_generate_single_briefing` invocations run one after
the other (the `generate_briefings` loop, and any number of later
runs). -/
def runGeneration (db : DB) : List (Paper × Settings × Option PyStr) → DB
  | [] => db
  | j :: js => runGeneration (_generate_single_briefing db j.1 j.2.1 j.2.2).2 js

/-- SQL ILIKE with pattern percent-kw-percent on a nullable text column: case-insensitive
containment; a NULL column never matches (NULL comparisons are not
true).  The keywords fed to this filter come from
`ResearchField.get_keywords_list` and are treated as plain text (no LIKE
metacharacters). -/
def ilikeContains (kw : PyStr) : Option PyStr → Bool
  | some s => pyIn (pyLower kw) (pyLower s)
  | none => false

/-- The disjunctive keyword condition built in briefing_service.py lines
83-92 (and identically at lines 166-176 and paper_service.py lines
217-228): some keyword matches title, abstract or the keywords column. -/
def keywordCond (kws : List PyStr) (p : Paper) : Bool :=
  kws.any (fun kw =>
    ilikeContains kw (some p.title) || ilikeContains kw (some p.abstract) ||
    ilikeContains kw p.keywords)

/-- The row filter of the candidate query in
BriefingService._get_pending_papers (briefing_service.py lines 64-92):
anti-join against briefings, publish_date within the window (a NULL
publish_date fails the SQL comparison), and — only when the flattened
keyword list is non-empty — the disjunctive keyword condition. -/
def pendingFilter (db : DB) (since : Int) (kws : List PyStr) (p : Paper) : Bool :=
  db.briefings.all (fun b => decide (b.paper_id ≠ p.id)) &&
  (match p.publish_date with
   | some d => decide (since ≤ d)
   | none => false) &&
  (kws.isEmpty || keywordCond kws p)

/-- SQL `ORDER BY publish_date DESC` comparison: `descGE a b` holds when
`a` may come before `b`.  NULLs sort last under DESC (SQLite treats NULL
as smaller than every value); eligible rows always have a date, so this
case never fires for them. -/
def descGE : Option Int → Option Int → Bool
  | some x, some y => decide (y ≤ x)
  | some _, none => true
  | none, some _ => false
  | none, none => true

/-- The ordering relation on papers induced by
`ORDER BY Paper.publish_date DESC`. -/
def paperDescOrder (a b : Paper) : Prop := descGE a.publish_date b.publish_date = true

instance : DecidableRel paperDescOrder := fun a b => by
  unfold paperDescOrder; infer_instance

/-- Flatten the keyword lists of a set of research fields
(briefing_service.py lines 77-79). -/
def fieldsKeywords (research_fields : Option (List ResearchField)) : List PyStr :=
  (research_fields.getD []).flatMap ResearchField.get_keywords_list

/-- What the SQL of `_get_pending_papers` actually specifies about the
returned list (briefing_service.py lines 64-95): some full ordering of
exactly the eligible rows that is weakly decreasing in publish_date —
`ORDER BY publish_date DESC` constrains nothing further, in particular
no tie-break among equal dates — of which the first `limit` rows are
returned. -/
def pendingQueryResult (db : DB) (now : Int)
    (research_fields : Option (List ResearchField)) (limit : Nat)
    (res : List Paper) : Prop :=
  let since := now - 7 * oneDay
  let kws := fieldsKeywords research_fields
  ∃ full : List Paper,
    full.Perm (db.papers.filter (pendingFilter db since kws)) ∧
    full.Pairwise paperDescOrder ∧
    res = full.take limit

/-- One storage-layer realisation of `_get_pending_papers`
(briefing_service.py lines 55-99): filter the eligible rows, sort by
publish_date descending (insertion sort — one admissible order; the SQL
leaves the order of equal dates unspecified) and take the first `limit`
rows. -/
def _get_pending_papers (db : DB) (now : Int) (limit : Nat)
    (research_fields : Option (List ResearchField)) : List Paper :=
  let since := now - 7 * oneDay
  let kws := fieldsKeywords research_fields
  ((db.papers.filter (pendingFilter db since kws)).insertionSort
    paperDescOrder).take limit

/-- Resolve the Paper joined to a Briefing row. -/
def paperOf (db : DB) (b : Briefing) : Option Paper :=
  db.papers.find? (fun p => decide (p.id = b.paper_id))

/-- The candidate filter of BriefingService.create_user_briefings
(briefing_service.py lines 154-176): briefings not yet assigned to the
user (anti-join on user_briefings by user), inner-joined to their paper,
and — only when the user has configured keywords — the disjunctive
keyword condition on the joined paper. -/
def fanoutFilter (db : DB) (u : User) (kws : List PyStr) (b : Briefing) : Bool :=
  !((db.user_briefings.filter (fun ub => decide (ub.user_id = u.id))).map
      UserBriefing.briefing_id).contains b.id &&
  (match paperOf db b with
   | some p => kws.isEmpty || keywordCond kws p
   | none => false)

/-- Ordering of fanout candidates: by the joined publish_date descending
(briefing_service.py line 179). -/
def briefingDescOrder (db : DB) (a b : Briefing) : Prop :=
  descGE ((paperOf db a).bind Paper.publish_date)
    ((paperOf db b).bind Paper.publish_date) = true

instance (db : DB) : DecidableRel (briefingDescOrder db) := fun a b => by
  unfold briefingDescOrder; infer_instance

/-- BriefingService.create_user_briefings (briefing_service.py lines
143-202): filter unassigned briefings through the keyword condition,
order by publish date descending, cap at `daily_paper_limit * 3`, and
insert one UserBriefing row per candidate with `is_sent = False` and the
column defaults for the remaining flags. -/
def create_user_briefings (db : DB) (u : User) (now : Int) :
    List UserBriefing × DB :=
  let all_keywords := u.research_fields.flatMap ResearchField.get_keywords_list
  let candidates := db.briefings.filter (fanoutFilter db u all_keywords)
  let picked := (candidates.insertionSort (briefingDescOrder db)).take
    (u.daily_paper_limit * 3)
  let n0 := freshId (db.user_briefings.map UserBriefing.id)
  let rows := picked.enum.map (fun ib =>
    ({ id := n0 + ib.1
       user_id := u.id
       briefing_id := ib.2.id
       is_sent := false
       sent_at := none
       is_read := false
       read_at := none
       is_interested := false
       created_at := now } : UserBriefing))
  (rows, { db with user_briefings := db.user_briefings ++ rows })

/-! ## Delivery state machine
(mark_user_briefing_sent / _read / _interested,
briefing_service.py lines 269-344).  Each method looks up the first row
with the given id, mutates it and commits, returning True; an unknown id
returns False without touching the store. -/

/-- Update the first element satisfying `p` (the ORM `first()` row that
gets mutated); primary-key uniqueness makes it the only match. -/
def updateFirst (p : α → Bool) (f : α → α) : List α → List α
  | [] => []
  | x :: xs => if p x then f x :: xs else x :: updateFirst p f xs

/-- BriefingService.mark_user_briefing_sent (lines 269-293): set
is_sent=True and sent_at=now on the row, True on success, False when the
id is unknown. -/
def mark_user_briefing_sent (db : DB) (now : Int) (ubid : Nat) : Bool × DB :=
  if db.user_briefings.any (fun ub => decide (ub.id = ubid)) then
    (true, { db with user_briefings :=
      (updateFirst (fun ub => decide (ub.id = ubid))
        (fun ub => { ub with is_sent := true, sent_at := some now })
        db.user_briefings) })
  else (false, db)

/-- BriefingService.mark_user_briefing_read (lines 295-319): set
is_read=True and read_at=now on the row — note the source assigns
read_at unconditionally on EVERY successful call — True on success,
False when the id is unknown. -/
def mark_user_briefing_read (db : DB) (now : Int) (ubid : Nat) : Bool × DB :=
  if db.user_briefings.any (fun ub => decide (ub.id = ubid)) then
    (true, { db with user_briefings :=
      (updateFirst (fun ub => decide (ub.id = ubid))
        (fun ub => { ub with is_read := true, read_at := some now })
        db.user_briefings) })
  else (false, db)

/-- BriefingService.mark_user_briefing_interested (lines 321-344): set
is_interested=True (no timestamp column exists for it), True on success,
False when the id is unknown. -/
def mark_user_briefing_interested (db : DB) (ubid : Nat) : Bool × DB :=
  if db.user_briefings.any (fun ub => decide (ub.id = ubid)) then
    (true, { db with user_briefings :=
      (updateFirst (fun ub => decide (ub.id = ubid))
        (fun ub => { ub with is_interested := true })
        db.user_briefings) })
  else (false, db)

/-! ## Derived invariant predicates -/

/-- No two persisted papers share an external_id (what the global
`unique=True` on the column enforces). -/
def papersExternalIdUnique (db : DB) : Prop :=
  db.papers.Pairwise (fun p q => p.external_id ≠ q.external_id)

/-- At most one Briefing row per paper. -/
def briefingPerPaperUnique (db : DB) : Prop :=
  db.briefings.Pairwise (fun b c => b.paper_id ≠ c.paper_id)

/-- The ordering property C9 claims for the candidate list: among equal
publish dates the smaller paper id comes first. -/
def tieBreakIdAsc (res : List Paper) : Prop :=
  res.Pairwise (fun a b => a.publish_date = b.publish_date → a.id < b.id)

instance (db : DB) : Decidable (papersExternalIdUnique db) := by
  unfold papersExternalIdUnique; infer_instance

instance (db : DB) : Decidable (briefingPerPaperUnique db) := by
  unfold briefingPerPaperUnique; infer_instance

instance (res : List Paper) : Decidable (tieBreakIdAsc res) := by
  unfold tieBreakIdAsc; infer_instance

/-! ## Concrete fixtures for counterexamples and witnesses -/

/-- Settings with no generation backend configured. -/
def cfgNone : Settings := ⟨false, false⟩

/-- Settings with an OpenAI key configured. -/
def cfgOpenAI : Settings := ⟨true, false⟩

def pC1 : Paper :=
  { id := 1, external_id := chars "2501.0001", source := chars "arxiv"
    title := chars "t", authors := chars "a", abstract := chars "s"
    keywords := none, publish_date := some 0, venue := none
    pdf_url := none, source_url := chars "u" }

def dbC1 : DB := ⟨[pC1], [], []⟩

/-- State after the first of the two racing generation invocations has
committed its insert. -/
def dbC1a : DB := (_generate_single_briefing dbC1 pC1 cfgNone none).2

/-- The row the second racing invocation builds: its pre-check already
ran against `dbC1`, so it proceeds to insert into `dbC1a`. -/
def bC1race : Briefing := briefingRow dbC1a pC1 cfgNone none

def pW1 : Paper :=
  { id := 3, external_id := chars "2501.0003", source := chars "arxiv"
    title := chars "t3", authors := chars "a", abstract := chars "s"
    keywords := none, publish_date := some 0, venue := none
    pdf_url := none, source_url := chars "u" }

def mW2 : PaperMetadata :=
  { external_id := chars "1234.5678", source := chars "arxiv"
    title := chars "t", authors := [chars "a"], abstract := chars "s"
    keywords := [], publish_date := some 0, venue := none
    pdf_url := none, source_url := chars "u" }

/-- Store obtained by ingesting `mW2` once into the empty store. -/
def dbW2 : DB := (ingest ⟨[], [], []⟩ [mW2]).2

def ubC3 : UserBriefing :=
  { id := 7, user_id := 1, briefing_id := 1, is_sent := false
    sent_at := none, is_read := false, read_at := none
    is_interested := false, created_at := 0 }

def dbC3 : DB := ⟨[], [], [ubC3]⟩

/-- State after the first `markRead` call, made at time 5. -/
def dbC3a : DB := (mark_user_briefing_read dbC3 5 7).2

/-- A 501-character abstract (one character over the truncation limit):
a `b` followed by 500 `a`s. -/
def absC4 : PyStr := 'b' :: List.replicate 500 'a'

def pC4 : Paper :=
  { id := 1, external_id := chars "2501.0004", source := chars "arxiv"
    title := chars "T", authors := chars "A", abstract := absC4
    keywords := none, publish_date := some 0, venue := none
    pdf_url := none, source_url := chars "u" }

def dbC4 : DB := ⟨[pC4], [], []⟩

def fW5 : ResearchField := { id := 1, name := chars "ml", keywords := none }

def uW5 : User :=
  { id := 1, telegram_id := chars "100", daily_paper_limit := 1
    is_active := true, crawl_history_days := 7, research_fields := [fW5] }

def pW5 : Paper :=
  { id := 1, external_id := chars "2501.0005", source := chars "arxiv"
    title := chars "t", authors := chars "a", abstract := chars "s"
    keywords := none, publish_date := some 10, venue := none
    pdf_url := none, source_url := chars "u" }

def bW5a : Briefing := { id := 1, paper_id := 1, content := chars "c1", ai_model := none }
def bW5b : Briefing := { id := 2, paper_id := 1, content := chars "c2", ai_model := none }
def bW5c : Briefing := { id := 3, paper_id := 1, content := chars "c3", ai_model := none }
def bW5d : Briefing := { id := 4, paper_id := 1, content := chars "c4", ai_model := none }

/-- Four eligible briefings for a user with daily_paper_limit = 1:
the fanout cap is 3. -/
def dbW5 : DB := ⟨[pW5], [bW5a, bW5b, bW5c, bW5d], []⟩

def ubW7 : UserBriefing :=
  { id := 1, user_id := 1, briefing_id := 1, is_sent := true
    sent_at := some 3, is_read := false, read_at := none
    is_interested := false, created_at := 0 }

def dbW7 : DB := ⟨[], [], [ubW7]⟩

def ubW8 : UserBriefing :=
  { id := 1, user_id := 1, briefing_id := 1, is_sent := false
    sent_at := none, is_read := false, read_at := none
    is_interested := false, created_at := 0 }

def dbW8 : DB := ⟨[], [], [ubW8]⟩

def p1C9 : Paper :=
  { id := 1, external_id := chars "2501.0009", source := chars "arxiv"
    title := chars "t1", authors := chars "a", abstract := chars "s"
    keywords := none, publish_date := some 100, venue := none
    pdf_url := none, source_url := chars "u" }

def p2C9 : Paper :=
  { id := 2, external_id := chars "2501.0010", source := chars "arxiv"
    title := chars "t2", authors := chars "a", abstract := chars "s"
    keywords := none, publish_date := some 100, venue := none
    pdf_url := none, source_url := chars "u" }

/-- Two briefing-less papers with EQUAL publish dates. -/
def dbC9 : DB := ⟨[p1C9, p2C9], [], []⟩

def mW10a : PaperMetadata :=
  { external_id := chars "shared-id", source := chars "arxiv"
    title := chars "t", authors := [chars "a"], abstract := chars "s"
    keywords := [], publish_date := some 0, venue := none
    pdf_url := none, source_url := chars "u" }

/-- Same external_id as `mW10a` but a different source. -/
def mW10b : PaperMetadata :=
  { external_id := chars "shared-id", source := chars "openreview"
    title := chars "t2", authors := [chars "a"], abstract := chars "s"
    keywords := [], publish_date := some 0, venue := none
    pdf_url := none, source_url := chars "u" }

def dbW10 : DB := (ingest ⟨[], [], []⟩ [mW10a]).2

/-! ## Helper lemmas -/

theorem pyIn_iff (pat text : PyStr) : pyIn pat text = true ↔ pat <:+: text := by
  simp [pyIn]

theorem updateFirst_map_eq (p : α → Bool) (f : α → α) (g : α → β)
    (hg : ∀ x, p x = true → g (f x) = g x) :
    ∀ l : List α, (updateFirst p f l).map g = l.map g
  | [] => rfl
  | x :: xs => by
    by_cases hx : p x = true
    · simp [updateFirst, hx, hg x hx]
    · simp [updateFirst, hx, updateFirst_map_eq p f g hg xs]

theorem find?_updateFirst (p : α → Bool) (f : α → α)
    (hf : ∀ x, p x = true → p (f x) = true) :
    ∀ l : List α, (updateFirst p f l).find? p = (l.find? p).map f
  | [] => rfl
  | x :: xs => by
    by_cases hx : p x = true
    · simp [updateFirst, hx, List.find?_cons_of_pos, hf x hx]
    · simp [updateFirst, hx, List.find?_cons_of_neg, find?_updateFirst p f hf xs]

/-- A single `_save_paper` call preserves global uniqueness of
external_id: the skip and rollback branches leave the store unchanged,
and the insert branch passed the unique-column check. -/
theorem save_paper_uniqExt (db : DB) (m : PaperMetadata)
    (hdb : papersExternalIdUnique db) :
    papersExternalIdUnique (_save_paper db m).2 := by
  unfold _save_paper
  by_cases h1 : db.papers.any (fun p =>
      decide (p.external_id = m.external_id) && decide (p.source = m.source)) = true
  · rw [if_pos h1]
    exact hdb
  · rw [if_neg h1]
    by_cases h2 : paperInsertOk db (paperRow db m) = true
    · rw [if_pos h2]
      unfold papersExternalIdUnique at hdb ⊢
      dsimp only
      rw [List.pairwise_append]
      refine ⟨hdb, List.pairwise_singleton _ _, ?_⟩
      intro a ha b hb
      rw [List.mem_singleton] at hb
      subst hb
      have hall := List.all_eq_true.mp h2 a ha
      simp only [Bool.and_eq_true, decide_eq_true_eq] at hall
      exact hall.2
    · rw [if_neg (by simpa using h2)]
      exact hdb

/-- The ingestion loop preserves global uniqueness of external_id. -/
theorem ingest_uniqExt : ∀ (ms : List PaperMetadata) (db : DB),
    papersExternalIdUnique db → papersExternalIdUnique (ingest db ms).2
  | [], _, h => h
  | m :: rest, db, h => ingest_uniqExt rest _ (save_paper_uniqExt db m h)

/-! ## C6 — FieldMatcher -/

/-- C6: the field-matching predicate is disjunctive case-insensitive
substring matching over the concatenation of title, abstract and joined
keywords: with a non-empty interest set it returns true iff some
interest occurs (case-insensitively) as a substring of the concatenated
text, and an empty interest set always matches. -/
theorem C6_field_matcher_disjunctive (title abstract : PyStr)
    (keywords user_interests : List PyStr) :
    (check_interest title abstract keywords user_interests).1 = true ↔
      (user_interests = [] ∨
        ∃ kw ∈ user_interests,
          pyLower kw <:+: pyLower (title ++ chars " " ++ abstract ++ chars " " ++
            List.intercalate (chars " ") keywords)) := by
  unfold check_interest
  by_cases h : user_interests.isEmpty
  · rw [if_pos h]
    simp [List.isEmpty_iff.mp h]
  · rw [if_neg h]
    have hne : user_interests ≠ [] := by
      intro hh; rw [hh] at h; exact h rfl
    have hlen : 0 < user_interests.length := List.length_pos.mpr hne
    dsimp only
    simp only [Bool.or_eq_true, decide_eq_true_eq]
    constructor
    · rintro (hs | hmc)
      · by_cases hz : user_interests.countP
            (fun i => pyIn (pyLower i)
              (pyLower (title ++ chars " " ++ abstract ++ chars " " ++
                List.intercalate (chars " ") keywords))) = 0
        · rw [hz] at hs
          norm_num at hs
        · right
          obtain ⟨kw, hkw, hp⟩ := List.countP_pos_iff.mp (Nat.pos_of_ne_zero hz)
          exact ⟨kw, hkw, (pyIn_iff _ _).mp hp⟩
      · right
        obtain ⟨kw, hkw, hp⟩ := List.countP_pos_iff.mp hmc
        exact ⟨kw, hkw, (pyIn_iff _ _).mp hp⟩
    · rintro (rfl | ⟨kw, hkw, hinf⟩)
      · exact absurd rfl hne
      · right
        exact List.countP_pos_iff.mpr ⟨kw, hkw, (pyIn_iff _ _).mpr hinf⟩

/-- Witness for C6 at spec scenario 5: a single interest keyword,
matching case-insensitively. -/
theorem C6_field_matcher_disjunctive_witness :
    (check_interest (chars "A TRANSFORMER Model") (chars "") [] [chars "transformer"]).1 = true ↔
      ([chars "transformer"] = ([] : List PyStr) ∨
        ∃ kw ∈ [chars "transformer"],
          pyLower kw <:+: pyLower (chars "A TRANSFORMER Model" ++ chars " " ++ chars "" ++
            chars " " ++ List.intercalate (chars " ") [])) :=
  C6_field_matcher_disjunctive (chars "A TRANSFORMER Model") (chars "") [] [chars "transformer"]

/-! ## C2 — ingestion dedup is idempotent -/

/-- C2: when a record already identifies a persisted paper by
(source, external_id), saving it again returns None with the store
untouched (no row inserted, no field updated), and the ingestion loop
excludes it from the list of newly inserted papers. -/
theorem C2_ingest_dedup_idempotent (db : DB) (m : PaperMetadata)
    (h : ∃ p ∈ db.papers, p.external_id = m.external_id ∧ p.source = m.source) :
    (_save_paper db m).1 = none ∧ (_save_paper db m).2 = db ∧
      ∀ ms : List PaperMetadata, ingest db (m :: ms) = ingest db ms := by
  have hany : db.papers.any (fun p =>
      decide (p.external_id = m.external_id) && decide (p.source = m.source)) = true := by
    obtain ⟨p, hp, h1, h2⟩ := h
    exact List.any_eq_true.mpr ⟨p, hp, by simp [h1, h2]⟩
  refine ⟨?_, ?_, fun ms => ?_⟩
  · simp [_save_paper, hany]
  · simp [_save_paper, hany]
  · simp [ingest, _save_paper, hany]

/-- Witness for C2: re-ingesting the very record that produced the only
persisted paper is a no-op. -/
theorem C2_ingest_dedup_idempotent_witness :
    (∃ p ∈ dbW2.papers, p.external_id = mW2.external_id ∧ p.source = mW2.source) ∧
      (_save_paper dbW2 mW2).1 = none ∧ (_save_paper dbW2 mW2).2 = dbW2 :=
  ⟨by decide, (C2_ingest_dedup_idempotent dbW2 mW2 (by decide)).1,
    (C2_ingest_dedup_idempotent dbW2 mW2 (by decide)).2.1⟩

/-! ## C10 — global uniqueness of external_id -/

/-- C10: the papers table enforces global uniqueness of external_id
alone (having stayed unique, any two persisted rows differ in
external_id, across sources too); saving a record whose external_id
collides with an existing paper of a DIFFERENT source inserts nothing
and returns no new paper — the (source, external_id) lookup misses, and
the unique-column check rejects the insert. -/
theorem C10_external_id_globally_unique (db : DB) (m : PaperMetadata)
    (hdb : papersExternalIdUnique db) :
    papersExternalIdUnique (_save_paper db m).2 ∧
    (∀ ms : List PaperMetadata, papersExternalIdUnique (ingest db ms).2) ∧
    ((∃ p ∈ db.papers, p.external_id = m.external_id ∧ p.source ≠ m.source) →
      (_save_paper db m).1 = none ∧ (_save_paper db m).2 = db) := by
  refine ⟨save_paper_uniqExt db m hdb, fun ms => ingest_uniqExt ms db hdb, ?_⟩
  rintro ⟨p, hp, hext, _⟩
  unfold _save_paper
  by_cases h1 : db.papers.any (fun q =>
      decide (q.external_id = m.external_id) && decide (q.source = m.source)) = true
  · rw [if_pos h1]
    exact ⟨rfl, rfl⟩
  · rw [if_neg h1]
    have h2 : paperInsertOk db (paperRow db m) = false := by
      by_contra hc
      rw [Bool.not_eq_false] at hc
      have hall := List.all_eq_true.mp hc p hp
      simp only [Bool.and_eq_true, decide_eq_true_eq] at hall
      exact hall.2 hext
    rw [if_neg (by simp [h2])]
    exact ⟨rfl, rfl⟩

/-- Witness for C10: `shared-id` already persisted from arxiv; the same
external_id arriving from openreview is rejected without a new row. -/
theorem C10_external_id_globally_unique_witness :
    papersExternalIdUnique dbW10 ∧
    (∃ p ∈ dbW10.papers, p.external_id = mW10b.external_id ∧ p.source ≠ mW10b.source) ∧
    (_save_paper dbW10 mW10b).1 = none ∧ (_save_paper dbW10 mW10b).2 = dbW10 :=
  ⟨by decide, by decide,
    (C10_external_id_globally_unique dbW10 mW10b (by decide)).2.2 (by decide)⟩

/-! ## C1 — one briefing per paper -/

/-- C1 counterexample: the persistence layer does NOT enforce uniqueness
of Briefing.paper_id (the schema declares only a non-unique index), so
two concurrent generation invocations targeting the same paper can both
pass the pre-check and both insert.  Both racing pre-checks read `dbC1`
and miss; the first invocation commits, and the insert-time constraint
check then also ACCEPTS the second row with the same paper_id, leaving
two Briefing rows for paper 1. -/
theorem C1_counterexample :
    (dbC1.briefings.find? (fun b => decide (b.paper_id = pC1.id)) = none) ∧
    briefingInsertOk dbC1a bC1race = true ∧
    ¬ briefingPerPaperUnique (insertBriefing dbC1a bC1race) ∧
    (insertBriefing dbC1a bC1race).briefings.countP
      (fun b => decide (b.paper_id = pC1.id)) = 2 := by
  refine ⟨by decide, by decide, ?_, by decide⟩
  decide

/-- C1 as amended: per-paper briefing uniqueness is maintained solely by
the pre-insert existence check of `_generate_single_briefing`, and
therefore holds after any SEQUENCE of (non-overlapping) generation
invocations. -/
theorem C1_amended_sequential_uniqueness (db : DB)
    (jobs : List (Paper × Settings × Option PyStr))
    (h : briefingPerPaperUnique db) :
    briefingPerPaperUnique (runGeneration db jobs) := by
  induction jobs generalizing db with
  | nil => exact h
  | cons j js ih =>
    show briefingPerPaperUnique
      (runGeneration (_generate_single_briefing db j.1 j.2.1 j.2.2).2 js)
    apply ih
    unfold _generate_single_briefing
    cases hf : db.briefings.find? (fun b => decide (b.paper_id = j.1.id)) with
    | some e => exact h
    | none =>
      dsimp only
      by_cases hok : briefingInsertOk db (briefingRow db j.1 j.2.1 j.2.2) = true
      · rw [if_pos hok]
        unfold briefingPerPaperUnique at h ⊢
        unfold insertBriefing
        dsimp only
        rw [List.pairwise_append]
        refine ⟨h, List.pairwise_singleton _ _, ?_⟩
        intro a ha b hb
        rw [List.mem_singleton] at hb
        subst hb
        have := List.find?_eq_none.mp hf a ha
        simpa [briefingRow] using this
      · rw [if_neg (by simpa using hok)]
        exact h

/-- Witness for C1 (amended): two sequential invocations for the same
paper leave a single briefing row. -/
theorem C1_amended_sequential_uniqueness_witness :
    briefingPerPaperUnique dbC1 ∧
    briefingPerPaperUnique
      (runGeneration dbC1 [(pC1, cfgNone, none), (pC1, cfgNone, none)]) :=
  ⟨by decide,
    C1_amended_sequential_uniqueness dbC1 [(pC1, cfgNone, none), (pC1, cfgNone, none)]
      (by decide)⟩

/-! ## C3 — markRead idempotence -/

/-- C3 counterexample: `mark_user_briefing_read` assigns
read_at = utcnow() on EVERY successful call, so a second call at time 9
overwrites the time-5 value set by the first call: afterwards read_at is
9, not 5. -/
theorem C3_counterexample :
    (mark_user_briefing_read dbC3a 9 7).1 = true ∧
    (mark_user_briefing_read dbC3a 9 7).2.user_briefings.map UserBriefing.read_at =
      [some 9] ∧
    ¬ ((mark_user_briefing_read dbC3a 9 7).2.user_briefings.map UserBriefing.read_at =
      [some 5]) := by
  refine ⟨by decide, by decide, by decide⟩

/-- Unfolding lemma for a successful markRead call. -/
theorem markRead_spec (db : DB) (t : Int) (ubid : Nat)
    (h : db.user_briefings.any (fun ub => decide (ub.id = ubid)) = true) :
    mark_user_briefing_read db t ubid =
      (true, { db with user_briefings :=
        (updateFirst (fun ub => decide (ub.id = ubid))
          (fun ub => { ub with is_read := true, read_at := some t })
          db.user_briefings) }) := by
  unfold mark_user_briefing_read
  rw [if_pos h]

/-- C3 as amended: a second markRead on an existing id succeeds and is a
no-op on the read FLAG (still true), but read_at is overwritten with the
current time of the second call — after two calls at t1 then t2, read_at is
t2, not the value set by the first call. -/
theorem C3_amended_markRead_overwrites_read_at (db : DB) (ubid : Nat) (t1 t2 : Int)
    (h : ∃ ub ∈ db.user_briefings, ub.id = ubid) :
    (mark_user_briefing_read db t1 ubid).1 = true ∧
    (mark_user_briefing_read (mark_user_briefing_read db t1 ubid).2 t2 ubid).1 = true ∧
    ((mark_user_briefing_read (mark_user_briefing_read db t1 ubid).2 t2 ubid).2.user_briefings.find?
        (fun ub => decide (ub.id = ubid))).map (fun ub => (ub.is_read, ub.read_at)) =
      some (true, some t2) := by
  obtain ⟨u0, hu0, hid⟩ := h
  have hany1 : db.user_briefings.any (fun ub => decide (ub.id = ubid)) = true :=
    List.any_eq_true.mpr ⟨u0, hu0, by simp [hid]⟩
  have hfind1 : ∃ v, db.user_briefings.find? (fun ub => decide (ub.id = ubid)) = some v := by
    cases hfv : db.user_briefings.find? (fun ub => decide (ub.id = ubid)) with
    | some v => exact ⟨v, rfl⟩
    | none =>
      have := List.find?_eq_none.mp hfv u0 hu0
      simp [hid] at this
  obtain ⟨v, hv⟩ := hfind1
  have hidpres : ∀ (t : Int) (x : UserBriefing), (fun ub => decide (ub.id = ubid)) x = true →
      (fun ub => decide (ub.id = ubid))
        ({ x with is_read := true, read_at := some t } : UserBriefing) = true := by
    intro t x hx
    simpa using hx
  have hub1 : (mark_user_briefing_read db t1 ubid).2.user_briefings =
      updateFirst (fun ub => decide (ub.id = ubid))
        (fun ub => { ub with is_read := true, read_at := some t1 })
        db.user_briefings := by
    rw [markRead_spec db t1 ubid hany1]
  have hfind2 : (mark_user_briefing_read db t1 ubid).2.user_briefings.find?
      (fun ub => decide (ub.id = ubid)) =
      some ({ v with is_read := true, read_at := some t1 }) := by
    rw [hub1, find?_updateFirst _ _ (hidpres t1), hv]
    rfl
  have hmem2 := List.mem_of_find?_eq_some hfind2
  have hp2 := List.find?_some hfind2
  have hany2 : (mark_user_briefing_read db t1 ubid).2.user_briefings.any
      (fun ub => decide (ub.id = ubid)) = true :=
    List.any_eq_true.mpr ⟨_, hmem2, hp2⟩
  refine ⟨?_, ?_, ?_⟩
  · rw [markRead_spec db t1 ubid hany1]
  · rw [markRead_spec _ t2 ubid hany2]
  · rw [markRead_spec _ t2 ubid hany2]
    dsimp only
    rw [find?_updateFirst _ _ (hidpres t2), hfind2]
    rfl

/-- Witness for C3 (amended) at the spec scenario id 7 with call times 5
then 9. -/
theorem C3_amended_markRead_overwrites_read_at_witness :
    (∃ ub ∈ dbC3.user_briefings, ub.id = 7) ∧
    ((mark_user_briefing_read (mark_user_briefing_read dbC3 5 7).2 9 7).2.user_briefings.find?
        (fun ub => decide (ub.id = 7))).map (fun ub => (ub.is_read, ub.read_at)) =
      some (true, some 9) :=
  ⟨by decide, (C3_amended_markRead_overwrites_read_at dbC3 7 5 9 (by decide)).2.2⟩

/-! ## C7 — sent is monotonic under markRead/markInterested -/

/-- C7: markRead touches only is_read/read_at and markInterested touches
only is_interested — on every row, id, user_id, briefing_id, is_sent,
sent_at (and the respective other flags) are left exactly as they were,
so a true sent flag is never reset by either call. -/
theorem C7_sent_monotonic_frame (db : DB) (ubid : Nat) (now : Int) :
    ((mark_user_briefing_read db now ubid).2.user_briefings.map
        (fun ub => (ub.id, ub.user_id, ub.briefing_id, ub.is_sent, ub.sent_at,
          ub.is_interested, ub.created_at)) =
      db.user_briefings.map
        (fun ub => (ub.id, ub.user_id, ub.briefing_id, ub.is_sent, ub.sent_at,
          ub.is_interested, ub.created_at))) ∧
    ((mark_user_briefing_interested db ubid).2.user_briefings.map
        (fun ub => (ub.id, ub.user_id, ub.briefing_id, ub.is_sent, ub.sent_at,
          ub.is_read, ub.read_at, ub.created_at)) =
      db.user_briefings.map
        (fun ub => (ub.id, ub.user_id, ub.briefing_id, ub.is_sent, ub.sent_at,
          ub.is_read, ub.read_at, ub.created_at))) := by
  constructor
  · unfold mark_user_briefing_read
    split
    · dsimp only
      apply updateFirst_map_eq
      intro x _
      rfl
    · rfl
  · unfold mark_user_briefing_interested
    split
    · dsimp only
      apply updateFirst_map_eq
      intro x _
      rfl
    · rfl

/-- Witness for C7: on a store whose only row has is_sent = true, both
calls leave the sent data unchanged. -/
theorem C7_sent_monotonic_frame_witness :
    (mark_user_briefing_read dbW7 9 1).2.user_briefings.map
        (fun ub => (ub.id, ub.user_id, ub.briefing_id, ub.is_sent, ub.sent_at,
          ub.is_interested, ub.created_at)) =
      dbW7.user_briefings.map
        (fun ub => (ub.id, ub.user_id, ub.briefing_id, ub.is_sent, ub.sent_at,
          ub.is_interested, ub.created_at)) :=
  (C7_sent_monotonic_frame dbW7 1 9).1

/-! ## C8 — unknown id on state transitions -/

/-- C8: for an id that identifies no UserBriefing row, each of markSent,
markRead and markInterested returns False and leaves the store (hence
every UserBriefing row) unchanged; the embedded methods are total, no
exception reaches the caller. -/
theorem C8_unknown_id_returns_false (db : DB) (ubid : Nat) (now : Int)
    (h : ∀ ub ∈ db.user_briefings, ub.id ≠ ubid) :
    mark_user_briefing_sent db now ubid = (false, db) ∧
    mark_user_briefing_read db now ubid = (false, db) ∧
    mark_user_briefing_interested db ubid = (false, db) := by
  have hany : db.user_briefings.any (fun ub => decide (ub.id = ubid)) = false := by
    rw [List.any_eq_false]
    intro ub hub
    simpa using h ub hub
  refine ⟨?_, ?_, ?_⟩ <;>
    simp [mark_user_briefing_sent, mark_user_briefing_read,
      mark_user_briefing_interested, hany]

/-- Witness for C8: id 99 does not exist in a one-row store. -/
theorem C8_unknown_id_returns_false_witness :
    (∀ ub ∈ dbW8.user_briefings, ub.id ≠ 99) ∧
    mark_user_briefing_sent dbW8 4 99 = (false, dbW8) ∧
    mark_user_briefing_read dbW8 4 99 = (false, dbW8) ∧
    mark_user_briefing_interested dbW8 99 = (false, dbW8) :=
  ⟨by decide,
    (C8_unknown_id_returns_false dbW8 99 4 (by decide)).1,
    (C8_unknown_id_returns_false dbW8 99 4 (by decide)).2.1,
    (C8_unknown_id_returns_false dbW8 99 4 (by decide)).2.2⟩

/-! ## C5 — fanout cap and pending start state -/

/-- C5: one FanoutAssigner invocation creates exactly
min(eligible, daily_paper_limit * 3) UserBriefing rows — never more than
daily_paper_limit * 3 — and every created row starts pending
(is_sent = false) for the given user. -/
theorem C5_fanout_cap (db : DB) (u : User) (now : Int) :
    (create_user_briefings db u now).1.length =
      min ((db.briefings.filter (fanoutFilter db u
          (u.research_fields.flatMap ResearchField.get_keywords_list))).length)
        (u.daily_paper_limit * 3) ∧
    (create_user_briefings db u now).1.length ≤ u.daily_paper_limit * 3 ∧
    ∀ ub ∈ (create_user_briefings db u now).1,
      ub.is_sent = false ∧ ub.user_id = u.id := by
  unfold create_user_briefings
  dsimp only
  refine ⟨?_, ?_, ?_⟩
  · rw [List.length_map, List.enum_length, List.length_take,
      List.length_insertionSort, Nat.min_comm]
  · rw [List.length_map, List.enum_length, List.length_take,
      List.length_insertionSort]
    exact Nat.min_le_left _ _
  · intro ub hub
    rw [List.mem_map] at hub
    obtain ⟨ib, _, rfl⟩ := hub
    exact ⟨rfl, rfl⟩

/-- Witness for C5 at spec-scenario-like data: 4 eligible briefings,
daily_paper_limit = 1, so exactly min(4, 3) = 3 pending rows are
created. -/
theorem C5_fanout_cap_witness :
    (create_user_briefings dbW5 uW5 0).1.length =
      min ((dbW5.briefings.filter (fanoutFilter dbW5 uW5
          (uW5.research_fields.flatMap ResearchField.get_keywords_list))).length)
        (uW5.daily_paper_limit * 3) ∧
    (create_user_briefings dbW5 uW5 0).1.length = 3 :=
  ⟨(C5_fanout_cap dbW5 uW5 0).1, by decide⟩

/-! ## C9 — candidate ordering -/

theorem descGE_total : ∀ a b : Option Int, descGE a b = true ∨ descGE b a = true := by
  intro a b
  cases a <;> cases b <;> simp [descGE] <;> omega

theorem descGE_trans : ∀ a b c : Option Int,
    descGE a b = true → descGE b c = true → descGE a c = true := by
  intro a b c
  cases a <;> cases b <;> cases c <;> simp [descGE] <;> omega

instance : IsTotal Paper paperDescOrder := ⟨fun _ _ => descGE_total _ _⟩

instance : IsTrans Paper paperDescOrder := ⟨fun _ _ _ => descGE_trans _ _ _⟩

/-- C9 counterexample: with two eligible papers having EQUAL publish
dates, the list [p2, p1] — larger id first — satisfies everything the
candidate query specifies (it is an ordering of exactly the eligible
rows, weakly decreasing in publish_date), yet the id-ascending tie-break
claimed by C9 fails on it: ORDER BY publish_date DESC imposes no
tie-break. -/
theorem C9_counterexample :
    pendingQueryResult dbC9 100 none 10 [p2C9, p1C9] ∧
    ¬ tieBreakIdAsc [p2C9, p1C9] := by
  constructor
  · unfold pendingQueryResult
    refine ⟨[p2C9, p1C9], ?_, ?_, rfl⟩
    · decide
    · decide
  · decide

/-- C9 as amended: the candidate selection returns only papers lacking a
briefing, published within the 7-day recency window, in an order weakly
decreasing in publish date (newest first); the executable realisation
satisfies the query contract.  No tie-break between equal publish dates
is specified. -/
theorem C9_amended_candidate_selection (db : DB) (now : Int) (limit : Nat)
    (research_fields : Option (List ResearchField)) :
    pendingQueryResult db now research_fields limit
      (_get_pending_papers db now limit research_fields) ∧
    (∀ p ∈ _get_pending_papers db now limit research_fields,
      p ∈ db.papers ∧ (∀ b ∈ db.briefings, b.paper_id ≠ p.id) ∧
      ∃ d, p.publish_date = some d ∧ now - 7 * oneDay ≤ d) ∧
    (_get_pending_papers db now limit research_fields).Pairwise paperDescOrder := by
  have hsorted : ((db.papers.filter (pendingFilter db (now - 7 * oneDay)
      (fieldsKeywords research_fields))).insertionSort paperDescOrder).Pairwise
        paperDescOrder :=
    List.sorted_insertionSort paperDescOrder _
  refine ⟨?_, ?_, ?_⟩
  · unfold pendingQueryResult
    exact ⟨_, List.perm_insertionSort paperDescOrder _, hsorted, rfl⟩
  · intro p hp
    have hp1 : p ∈ (db.papers.filter (pendingFilter db (now - 7 * oneDay)
        (fieldsKeywords research_fields))).insertionSort paperDescOrder := by
      unfold _get_pending_papers at hp
      exact (List.take_sublist _ _).subset hp
    rw [List.mem_insertionSort, List.mem_filter] at hp1
    obtain ⟨hmem, hfilt⟩ := hp1
    unfold pendingFilter at hfilt
    simp only [Bool.and_eq_true] at hfilt
    obtain ⟨⟨hanti, hwin⟩, _⟩ := hfilt
    refine ⟨hmem, ?_, ?_⟩
    · intro b hb
      have := List.all_eq_true.mp hanti b hb
      simpa using this
    · cases hpd : p.publish_date with
      | none => rw [hpd] at hwin; exact absurd hwin (by simp)
      | some d =>
        rw [hpd] at hwin
        exact ⟨d, rfl, by simpa using hwin⟩
  · unfold _get_pending_papers
    exact hsorted.sublist (List.take_sublist _ _)

/-- Witness for C9 (amended) on the concrete two-paper store. -/
theorem C9_amended_candidate_selection_witness :
    pendingQueryResult dbC9 100 none 10 (_get_pending_papers dbC9 100 10 none) ∧
    (_get_pending_papers dbC9 100 10 none).Pairwise paperDescOrder :=
  ⟨(C9_amended_candidate_selection dbC9 100 10 none).1,
    (C9_amended_candidate_selection dbC9 100 10 none).2.2⟩

/-! ## C4 — fallback briefing content -/

set_option maxRecDepth 4000 in
/-- C4, evaluated at the failing input (OpenAI backend configured, the
generation call raises, abstract of 501 characters): a Briefing IS
created — that part of the claim holds — but its content is
`_fallback_summary` applied to the WHOLE GENERATION PROMPT as the title
and an empty abstract (the slip in the exception handlers of
ai_service.py lines 116-118 and 131-133).  The content therefore is not
the claimed title-plus-truncated-abstract fallback, and the full
untruncated 501-character abstract occurs inside it (embedded in the
prompt), with no 500-character truncation applied to it.  The third
conjunct checks the intended argument order on the no-backend path,
isolating the bug to the exception handlers. -/
theorem C4_generation_failure_fallback_bug :
    ((_generate_single_briefing dbC4 pC4 cfgOpenAI none).2.briefings.map Briefing.content =
      [_fallback_summary
        (_build_briefing_prompt pC4.title pC4.authors pC4.abstract pC4.venue) []]) ∧
    (∀ c ∈ (_generate_single_briefing dbC4 pC4 cfgOpenAI none).2.briefings.map Briefing.content,
      c ≠ _fallback_summary pC4.title pC4.abstract ∧ pC4.abstract <:+: c) ∧
    generate_briefing cfgNone none pC4.title pC4.authors pC4.abstract pC4.venue =
      _fallback_summary pC4.title pC4.abstract := by
  refine ⟨rfl, ?_, rfl⟩
  decide

end PaperNewsBot
